import Mathlib

/-!
# Verification of the TAT (turnaround-time) calculator

Shallow embedding of the core modules of the `tat-calculator` repository:

* `expression_evaluator.py` — the safe mini-expression interpreter
  (`ExpressionEvaluator._eval_node` / `evaluate_expression`),
* `stage_calculator.py` — the memoized stage resolver
  (`StageCalculator.calculate_adjusted_timestamp`),
* `models_config.py` — the configuration model and the load-time cycle
  check (`validate_config`),
* `tat_processor.py` — the per-PO processor and batch driver
  (`TATProcessor.calculate_tat` / `process_batch`).

Modelling conventions:

* Python `datetime` instants are modelled as integer numbers of seconds
  since an (arbitrary) epoch.  `timedelta(days=n)` is `86400 * n` seconds,
  and `timedelta.days` is the floor of `Δ / 86400` (Python's `timedelta`
  normalises by flooring, e.g. `timedelta(seconds=-1).days == -1`).
* Python numbers are modelled as `Int`: every number occurring in the
  repository's expressions and configurations is an integer (`lead_time`,
  stage ids, comparison constants).  Floats can only arise from `/`, which
  no expression in the repository uses; see `binOp` for how that single
  spot is approximated.
* The resolver stores timestamps in its details dict as ISO-8601 strings and
  re-parses them with `datetime.fromisoformat`; since that round trip is the
  identity, details carry `Option Int` directly.
* Python's unbounded recursion (the stage resolver recurses into dynamic
  predecessors; uncached cycles recurse forever) is modelled with explicit
  fuel; running out of fuel is `Except.error "RecursionError…"`, matching
  the `RecursionError` CPython would eventually raise.
* A `pandas.Series` row is a finite association list from column names to
  values; `po_row.get(k)` of a missing key is `None`.
-/

namespace Tat

mutual
/-- Python runtime values that can flow through `_eval_node`:
`None`, booleans, numbers (`int` as `Int`), strings, `datetime`
instants (seconds since epoch), and lists. -/
inductive Value where
  | vnone
  | vbool (b : Bool)
  | vnum (n : Int)
  | vstr (s : String)
  | vdate (t : Int)
  | vlist (vs : ValueList)

/-- A Python list of values (a separate inductive so that structural
recursion over values is available). -/
inductive ValueList where
  | vnil
  | vcons (v : Value) (vs : ValueList)
end

def ValueList.toList : ValueList → List Value
  | .vnil => []
  | .vcons v vs => v :: vs.toList

def ValueList.ofList : List Value → ValueList
  | [] => .vnil
  | v :: vs => .vcons v (ValueList.ofList vs)

/-- A PO row: finite map from column name to value (`pandas.Series`). -/
abbrev Row := List (String × Value)

/-- `po_row.get(k)` — `None` when the key is missing. -/
def rowGet (row : Row) (k : String) : Value :=
  match row.lookup k with
  | some v => v
  | none => Value.vnone

/-- `po_row.get(k, default)`. -/
def rowGetD (row : Row) (k : String) (d : Value) : Value :=
  match row.lookup k with
  | some v => v
  | none => d

/-- Python `str()` of a value, as used on dynamic predecessor stage-ids
(`str(prec_stage_id)`).  In the repository those ids are ints or strings;
`str()` of the remaining kinds is not observable anywhere and is given a
best-effort rendering. -/
def pyStr : Value → String
  | .vnone => "None"
  | .vbool b => if b then "True" else "False"
  | .vnum n => toString n
  | .vstr s => s
  | .vdate t => toString t
  | .vlist _ => "[...]"

/-- Python truthiness, as used by `iff`/`cond`'s `if condition:`. -/
def pyTruthy : Value → Bool
  | .vnone => false
  | .vbool b => b
  | .vnum n => if n = 0 then false else true
  | .vstr s => if s = "" then false else true
  | .vdate _ => true
  | .vlist vs => match vs with | .vnil => false | .vcons _ _ => true

/-- Python `bool`/`int`/`float` viewed as a number (`bool` is an `int`
subclass: `isinstance(True, int)` holds and `True == 1`). -/
def asNum : Value → Option Int
  | .vnum n => some n
  | .vbool b => some (if b then 1 else 0)
  | _ => none

/-- `timedelta.days` of `a - b` (instants in seconds): whole days, floored
(Python's `timedelta` normalisation floors, e.g.
`timedelta(seconds=-1).days == -1`). -/
def daysBetween (a b : Int) : Int :=
  (a - b).fdiv 86400

mutual
/-- Python `==` on the value kinds above: `None == None` is `True`,
`None == x` is `False` for non-`None` `x`, booleans compare equal to the
numbers `0`/`1`, lists compare element-wise, and values of unrelated
builtin types compare unequal (never raising). -/
def pyEq : Value → Value → Bool
  | .vnone, .vnone => true
  | .vstr s, .vstr t => decide (s = t)
  | .vdate a, .vdate b => decide (a = b)
  | .vlist as, .vlist bs => pyEqList as bs
  | a, b =>
      match asNum a, asNum b with
      | some x, some y => decide (x = y)
      | _, _ => false

/-- Element-wise list equality (CPython list `==`). -/
def pyEqList : ValueList → ValueList → Bool
  | .vnil, .vnil => true
  | .vcons a as, .vcons b bs => pyEq a b && pyEqList as bs
  | _, _ => false
end

mutual
/-- Python `<` on the value kinds above; comparing values of unrelated
types (in particular anything against `None`) raises `TypeError`. -/
def pyLt : Value → Value → Except String Bool
  | .vstr s, .vstr t => .ok (decide (s < t))
  | .vdate a, .vdate b => .ok (decide (a < b))
  | .vlist as, .vlist bs => pyLtList as bs
  | a, b =>
      match asNum a, asNum b with
      | some x, some y => .ok (decide (x < y))
      | _, _ => .error "TypeError: unorderable types"

/-- CPython's list lexicographic `<`: skip the longest `==`-equal prefix,
then compare the first differing items; a strict prefix is smaller. -/
def pyLtList : ValueList → ValueList → Except String Bool
  | .vnil, .vnil => .ok false
  | .vnil, .vcons _ _ => .ok true
  | .vcons _ _, .vnil => .ok false
  | .vcons a as, .vcons b bs =>
      if pyEq a b then pyLtList as bs else pyLt a b
end

mutual
/-- Python `<=` on the value kinds above. -/
def pyLe : Value → Value → Except String Bool
  | .vstr s, .vstr t => .ok (decide (s ≤ t))
  | .vdate a, .vdate b => .ok (decide (a ≤ b))
  | .vlist as, .vlist bs => pyLeList as bs
  | a, b =>
      match asNum a, asNum b with
      | some x, some y => .ok (decide (x ≤ y))
      | _, _ => .error "TypeError: unorderable types"

/-- CPython's list lexicographic `<=`. -/
def pyLeList : ValueList → ValueList → Except String Bool
  | .vnil, _ => .ok true
  | .vcons _ _, .vnil => .ok false
  | .vcons a as, .vcons b bs =>
      if pyEq a b then pyLeList as bs else pyLt a b
end

/-- Comparison operators of the expression language
(`ast.Eq | NotEq | Lt | LtE | Gt | GtE`). -/
inductive COp where
  | eq | ne | lt | le | gt | ge

/-- Binary operators of the expression language
(`ast.Add | Sub | Mult | Div`). -/
inductive BOp where
  | add | sub | mul | div

/-- The `ast.Compare` dispatch of `_eval_node`
(`expression_evaluator.py`, the `ast.Compare` branch): `==`/`!=` delegate
to Python equality (never raising); the ordered comparisons delegate to
the type-checked orders (raising `TypeError` on unrelated types). -/
def compareOp (op : COp) (l r : Value) : Except String Value :=
  match op with
  | .eq => .ok (.vbool (pyEq l r))
  | .ne => .ok (.vbool (!pyEq l r))
  | .lt => (pyLt l r).map .vbool
  | .le => (pyLe l r).map .vbool
  | .gt => (pyLt r l).map .vbool
  | .ge => (pyLe r l).map .vbool

/-- The `ast.BinOp` dispatch of `_eval_node`, reached only when neither
operand is `None`:

* `+` : `datetime + number` and `number + datetime` offset by days;
  otherwise Python `left + right` (numbers add, strings and lists
  concatenate, anything else raises `TypeError`);
* `-` : `datetime - number` offsets by days, `datetime - datetime` yields
  the integer day difference (`timedelta.days`, flooring); otherwise
  numbers subtract, anything else raises `TypeError`;
* `*` : numbers multiply; `str * int` repeats (a negative count gives
  `""`);
* `/` : `left / right if right != 0 else None` — a `0` divisor yields
  `None` (not a fault), otherwise numbers divide, anything else raises
  `TypeError`.  Python's `/` produces a float; with numbers modelled as
  integers the quotient is approximated by truncating division (no
  expression in the repository divides, so this branch is never
  exercised by the configuration). -/
def binOp (op : BOp) (l r : Value) : Except String Value :=
  match op with
  | .add =>
    match l, r with
    | .vdate t, x =>
        match asNum x with
        | some q => .ok (.vdate (t + 86400 * q))
        | none => .error "TypeError: unsupported operand type for +"
    | x, .vdate t =>
        match asNum x with
        | some q => .ok (.vdate (t + 86400 * q))
        | none => .error "TypeError: unsupported operand type for +"
    | .vstr s, .vstr t => .ok (.vstr (s ++ t))
    | .vlist xs, .vlist ys => .ok (.vlist (ValueList.ofList (xs.toList ++ ys.toList)))
    | a, b =>
        match asNum a, asNum b with
        | some x, some y => .ok (.vnum (x + y))
        | _, _ => .error "TypeError: unsupported operand type for +"
  | .sub =>
    match l, r with
    | .vdate t, .vdate u => .ok (.vnum (daysBetween t u))
    | .vdate t, x =>
        match asNum x with
        | some q => .ok (.vdate (t - 86400 * q))
        | none => .error "TypeError: unsupported operand type for -"
    | a, b =>
        match asNum a, asNum b with
        | some x, some y => .ok (.vnum (x - y))
        | _, _ => .error "TypeError: unsupported operand type for -"
  | .mul =>
    match l, r with
    | .vstr s, x =>
        match asNum x with
        | some q => .ok (.vstr (String.join (List.replicate q.toNat s)))
        | none => .error "TypeError: unsupported operand type for *"
    | x, .vstr s =>
        match asNum x with
        | some q => .ok (.vstr (String.join (List.replicate q.toNat s)))
        | none => .error "TypeError: unsupported operand type for *"
    | a, b =>
        match asNum a, asNum b with
        | some x, some y => .ok (.vnum (x * y))
        | _, _ => .error "TypeError: unsupported operand type for *"
  | .div =>
    if pyEq r (.vnum 0) then .ok .vnone
    else
      match asNum l, asNum r with
      | some x, some y => .ok (.vnum (x.tdiv y))
      | _, _ => .error "TypeError: unsupported operand type for /"

mutual
/-- Abstract syntax of the accepted expression subset (the `ast` nodes
`_eval_node` handles).  `invalid` stands for source text that fails
`ast.parse` — evaluating it is the `SyntaxError` the parse would raise. -/
inductive Expr where
  | name (s : String)
  | const (v : Value)
  | elist (es : ExprList)
  | binop (op : BOp) (l r : Expr)
  | compare (op : COp) (l r : Expr)
  | call (f : String) (args : ExprList)
  | invalid (msg : String)

/-- Argument/element lists of expressions. -/
inductive ExprList where
  | enil
  | econs (e : Expr) (es : ExprList)
end

/-- The resolver's per-stage dependency record
(`calc_details["dependencies"]` entries). -/
structure Dep where
  stage_id : String
  stage_name : String
  timestamp : Int
  method : Option String
deriving DecidableEq

/-- The resolver's `calc_details` dictionary.  The error dictionary
`{"method": "error", "reason": …}` is represented with the same structure:
its absent keys are only ever read through `dict.get` defaults, which
coincide with the field defaults below. -/
structure Details where
  method : Option String := none
  target_timestamp : Option Int := none
  actual_timestamp : Option Int := none
  final_timestamp : Option Int := none
  delay : Option Int := none
  lead_time_applied : Int := 0
  dependencies : List Dep := []
  actual_field : Option String := none
  precedence_method : Option String := none
  calculation_source : Option String := none
  reason : Option String := none
deriving DecidableEq

/-- A memoized resolver result: `(final_timestamp, calc_details)`. -/
abbrev Entry := Option Int × Details

/-- The per-PO memoization cache `calculated_adjustments` (a Python dict;
insertion is modelled by consing and lookup by first match, which realises
dict-overwrite semantics). -/
abbrev Cache := List (String × Entry)

/-- An `Option` timestamp as the value a `stage_<id>` reference yields. -/
def optDate : Option Int → Value
  | some t => .vdate t
  | none => .vnone

/-- Character-list prefix test (Python `str.startswith`; semantically the
same as `String.startsWith`, re-implemented so the kernel can evaluate
it). -/
def charsStartWith : List Char → List Char → Bool
  | _, [] => true
  | [], _ :: _ => false
  | c :: cs, d :: ds => c = d && charsStartWith cs ds

/-- One fuelled pass of `str.replace`: scan left to right, replacing each
non-overlapping occurrence of `pat`.  The fuel only needs to cover the
string length (each step consumes at least one character). -/
def replaceChars (pat rep : List Char) : Nat → List Char → List Char
  | 0, s => s
  | _ + 1, [] => []
  | fuel + 1, c :: cs =>
      if pat ≠ [] ∧ charsStartWith (c :: cs) pat then
        rep ++ replaceChars pat rep fuel ((c :: cs).drop pat.length)
      else
        c :: replaceChars pat rep fuel cs

/-- Python `s.startswith(p)`. -/
def pyStartsWith (s p : String) : Bool :=
  charsStartWith s.data p.data

/-- Python `s.replace(pat, rep)` — replaces every non-overlapping
occurrence, left to right (semantically `String.replace`, re-implemented
so the kernel can evaluate it). -/
def pyReplace (s pat rep : String) : String :=
  ⟨replaceChars pat.data rep.data (s.data.length + 1) s.data⟩

/-- `max(dates)` over the `datetime` arguments of the `max` builtin:
non-`datetime` arguments are filtered out, `None` results when none
remain. -/
def maxDates (vs : List Value) : Value :=
  match vs.filterMap (fun v => match v with | .vdate t => some t | _ => none) with
  | [] => .vnone
  | x :: xs => .vdate (xs.foldl max x)

/-- The `add_days` builtin: requires a `datetime` first argument and a
numeric second argument (truncated with `int()`), otherwise returns
`None`. -/
def addDays (vs : List Value) : Value :=
  match vs with
  | .vdate t :: a :: _ =>
      match asNum a with
      | some q => .vdate (t + 86400 * q)
      | none => .vnone
  | _ => .vnone

mutual
/-- `ExpressionEvaluator._eval_node`:

* `ast.Name`: an identifier starting with `stage_` whose remaining id (all
  occurrences of `"stage_"` removed, as `str.replace` does) is in the
  memoization cache yields that stage's cached timestamp; otherwise the
  identifier — including an uncached `stage_…` one — falls through to the
  PO-row lookup `po_row.get(node.id)`, missing keys yielding `None`.  The
  evaluator never calls back into the stage resolver: its only inputs are
  the cache and the row.
* `ast.Constant`, `ast.List`: literal values, element lists.
* `ast.BinOp`: if either evaluated operand is `None` the result is `None`;
  otherwise `binOp`.
* `ast.Compare`: `compareOp` on the first operator/comparator.
* `ast.Call`: `iff`/`cond` evaluate the condition and then only the chosen
  branch; `max`/`add_days` evaluate all arguments first; any other name
  raises `ValueError("Unknown function: …")`. -/
def evalNode (cache : Cache) (row : Row) : Expr → Except String Value
  | .name s =>
      if pyStartsWith s "stage_" then
        match cache.lookup (pyReplace s "stage_" "") with
        | some (ts, _) => .ok (optDate ts)
        | none => .ok (rowGet row s)
      else .ok (rowGet row s)
  | .const v => .ok v
  | .elist es => (evalArgs cache row es).map (fun vs => .vlist (ValueList.ofList vs))
  | .binop op l r => do
      let lv ← evalNode cache row l
      let rv ← evalNode cache row r
      match lv, rv with
      | .vnone, _ => .ok .vnone
      | _, .vnone => .ok .vnone
      | lv, rv => binOp op lv rv
  | .compare op l r => do
      let lv ← evalNode cache row l
      let rv ← evalNode cache row r
      compareOp op lv rv
  | .call f args =>
      if f = "iff" ∨ f = "cond" then
        match args with
        | .econs c (.econs t (.econs e2 .enil)) => do
            let cv ← evalNode cache row c
            if pyTruthy cv then evalNode cache row t else evalNode cache row e2
        | _ => .error "iff requires exactly 3 arguments"
      else do
        let vs ← evalArgs cache row args
        if f = "max" then .ok (maxDates vs)
        else if f = "add_days" then .ok (addDays vs)
        else .error ("Unknown function: " ++ f)
  | .invalid msg => .error ("SyntaxError: " ++ msg)

/-- Left-to-right evaluation of an argument list (the list comprehension
`[self._eval_node(arg, po_row) for arg in node.args]`). -/
def evalArgs (cache : Cache) (row : Row) : ExprList → Except String (List Value)
  | .enil => .ok []
  | .econs e es => do
      let v ← evalNode cache row e
      let vs ← evalArgs cache row es
      .ok (v :: vs)
end

/-- `ExpressionEvaluator.evaluate_expression`: evaluates inside a
`try`/`except`, keeps only `datetime` results, and reports everything else
as a `(None, message)` pair — no exception escapes. -/
def evaluate_expression (cache : Cache) (e : Expr) (row : Row) :
    Option Int × String :=
  match evalNode cache row e with
  | .ok (.vdate t) => (some t, "Calculation ok")
  | .ok _ => (none, "Calculation failed")
  | .error m => (none, "Calculation error: " ++ m)

/-! ## Configuration model (`models_config.py`) -/

/-- `ProcessFlow` (pydantic model). -/
structure ProcessFlow where
  critical_path : Bool
  parallel_processes : List String := []
  handoff_points : List String := []
  process_type : String := ""
  team_owner : String := ""
deriving DecidableEq

/-- `StageConfig` (pydantic model).  The raw configuration fields
`actual_timestamp` and `preceding_stage` are strings (or a string list);
the stage calculator feeds them to `ast.parse`, so the structure carries
both the raw value (used by `validate_config` and by
`TATProcessor._get_actual_timestamp`, which treats `actual_timestamp` as a
row column name) and its parsed `Expr` view (`…_expr`, the result of
`ast.parse` on the same text — `none` when the raw field is absent). -/
structure StageConfig where
  name : String
  actual_timestamp : Option String := none
  actual_expr : Option Expr := none
  preceding_stage : Option (String ⊕ List String) := none
  preceding_expr : Option Expr := none
  process_flow : ProcessFlow
  fallback_expression : Expr
  lead_time : Int := 0

/-- `StagesConfig`: the ordered stage catalog (a Python dict, modelled as
an association list preserving insertion order). -/
structure StagesConfig where
  stages : List (String × StageConfig)

/-- The `{"method": "error", "reason": …}` dictionary returned for a
stage-id missing from the catalog. -/
def errDetails (stage_id : String) : Details :=
  { method := some "error", reason := some s!"Stage {stage_id} not found" }

/-! ## Stage resolver (`stage_calculator.py`) -/

/-- `max` over Python's nonempty-list `max()`; `none` for the empty list
(the code guards with `if preceding_actual_timestamps:` /
`if preceding_final_timestamps:`). -/
def maxIntList : List Int → Option Int
  | [] => none
  | x :: xs => some (xs.foldl max x)

/-- Step "3. Determine method and final timestamps" of
`calculate_adjusted_timestamp` (`stage_calculator.py` lines 137–162),
returning `(method, actual_timestamp, final_timestamp,
calculation_source)`:

* with a current actual and a strictly later maximal predecessor actual:
  `Adjusted`, actual/final from the predecessor;
* with a current actual otherwise (no predecessor actual, or a maximum
  `≤` the current one — the comparison is strict `>`): `Actual`,
  actual/final from the field;
* without a current actual: `Projected`, final from the target, the
  maximal predecessor actual inherited, and `_target` appended to the
  calculation source. -/
def determineMethod (current_actual : Option Int)
    (preceding_actual_timestamps : List Int)
    (target : Option Int) (source : Option String) :
    String × Option Int × Option Int × Option String :=
  match current_actual with
  | some cur =>
    match maxIntList preceding_actual_timestamps with
    | some m =>
        if m > cur then
          ("Adjusted", some m, some m, some "actual_from_precedence")
        else
          ("Actual", some cur, some cur, some "actual_from_field")
    | none => ("Actual", some cur, some cur, some "actual_from_field")
  | none =>
    ("Projected", maxIntList preceding_actual_timestamps, target,
      some (match source with
            | some s => s ++ "_target"
            | none => "target"))

/-- Step "4. Calculate delay only for Actual/Adjusted methods"
(`stage_calculator.py` lines 164–169): a delay is recorded exactly when
the method is `Actual` or `Adjusted` and both the target and the actual
timestamps are present, and it is the floored whole-day difference
`actual - target`. -/
def computeDelay (method : String) (target actual : Option Int) : Option Int :=
  if method = "Actual" ∨ method = "Adjusted" then
    match target, actual with
    | some t, some a => some (daysBetween a t)
    | _, _ => none
  else none

/-- `result if isinstance(result, list) else []` — the stage-list
interpretation of a predecessor expression's value. -/
def stageListOf : Value → List Value
  | .vlist vs => vs.toList
  | _ => []

/-- Accumulator of the predecessor loop: final timestamps, actual
timestamps, the any-predecessor-Projected flag, and the dependency
records, in append order. -/
structure PredAcc where
  finals : List Int := []
  actuals : List Int := []
  has_projected : Bool := false
  deps : List Dep := []
deriving DecidableEq

/-- The `for prec_stage_id in preceding_stage_ids:` loop of
`calculate_adjusted_timestamp`: each id is passed through `str()`;
ids missing from the catalog are skipped; otherwise the resolver recurses
(`recur`, threading the cache), and a predecessor with a non-`None` final
timestamp contributes its final, its actual (when present), its
`Projected` flag and a dependency record. -/
def predLoopGo (cfg : StagesConfig)
    (recur : String → Cache → Except String (Entry × Cache)) :
    List Value → PredAcc → Cache → Except String (PredAcc × Cache)
  | [], acc, cache => .ok (acc, cache)
  | v :: rest, acc, cache =>
    let pid := pyStr v
    match cfg.stages.lookup pid with
    | none => predLoopGo cfg recur rest acc cache
    | some pstage =>
      match recur pid cache with
      | .error e => .error e
      | .ok ((pts, pdet), cache') =>
        match pts with
        | none => predLoopGo cfg recur rest acc cache'
        | some t =>
          let acc' : PredAcc :=
            { finals := acc.finals ++ [t]
              actuals := acc.actuals ++
                (match pdet.actual_timestamp with
                 | some x => [x]
                 | none => [])
              has_projected := acc.has_projected ||
                (pdet.method == some "Projected")
              deps := acc.deps ++
                [{ stage_id := pid, stage_name := pstage.name,
                   timestamp := t, method := pdet.method }] }
          predLoopGo cfg recur rest acc' cache'

/-- Step "1. Get preceding stages" of `calculate_adjusted_timestamp`
(`stage_calculator.py` lines 76–110): when a `preceding_stage` expression
is present it is parsed and evaluated with `_eval_node` **outside any
`try`** — a parse error or an evaluation exception propagates out of the
resolver; a non-list value is replaced by `[]`. -/
def predBlock (cfg : StagesConfig)
    (recur : String → Cache → Except String (Entry × Cache))
    (row : Row) (pre : Option Expr) (cache : Cache) :
    Except String (PredAcc × Cache) :=
  match pre with
  | none => .ok ({}, cache)
  | some e =>
    match evalNode cache row e with
    | .error m => .error m
    | .ok v => predLoopGo cfg recur (stageListOf v) {} cache

/-- The body of `StageCalculator.calculate_adjusted_timestamp` for one
recursion level (`recur` is the resolver itself at the next-lower fuel):

1. a cache hit returns the memoized pair unchanged;
2. a stage-id missing from the catalog returns `(None, error-details)`
   without touching the cache;
3. otherwise the predecessor block runs (possibly raising), the target is
   the maximal predecessor final plus lead time (else the fallback
   expression plus lead time), the current actual is evaluated, method /
   actual / final / delay are selected, and the resulting pair is stored
   in the cache before being returned. -/
def calcAux (cfg : StagesConfig) (row : Row)
    (recur : String → Cache → Except String (Entry × Cache))
    (stage_id : String) (cache : Cache) : Except String (Entry × Cache) :=
  match cache.lookup stage_id with
  | some p => .ok (p, cache)
  | none =>
    match cfg.stages.lookup stage_id with
    | none => .ok ((none, errDetails stage_id), cache)
    | some stage =>
      match predBlock cfg recur row stage.preceding_expr cache with
      | .error e => .error e
      | .ok (acc, cache1) =>
        let ts : Option Int × Option String :=
          match maxIntList acc.finals with
          | some base =>
              (some (base + 86400 * stage.lead_time),
               some "precedence_based")
          | none =>
            match (evaluate_expression cache1 stage.fallback_expression row).1 with
            | some fb =>
                (some (fb + 86400 * stage.lead_time),
                 some "fallback_based")
            | none => (none, none)
        let precedence_method : String :=
          if acc.has_projected then "Projected" else "Actual/Adjusted"
        let current_actual : Option Int :=
          match stage.actual_expr with
          | none => none
          | some e => (evaluate_expression cache1 e row).1
        let sel := determineMethod current_actual acc.actuals ts.1 ts.2
        let delay := computeDelay sel.1 ts.1 sel.2.1
        let details : Details :=
          { method := some sel.1
            target_timestamp := ts.1
            actual_timestamp := sel.2.1
            final_timestamp := sel.2.2.1
            delay := delay
            lead_time_applied := stage.lead_time
            dependencies := acc.deps
            actual_field := stage.actual_timestamp
            precedence_method := some precedence_method
            calculation_source := sel.2.2.2
            reason := none }
        let r : Entry := (sel.2.2.1, details)
        .ok (r, (stage_id, r) :: cache1)

/-- `StageCalculator.calculate_adjusted_timestamp`, with fuel bounding the
recursion depth into predecessors (Python's recursion is unbounded;
exhausted fuel is the `RecursionError` an uncached dependency cycle would
eventually raise). -/
def calculate_adjusted_timestamp (cfg : StagesConfig) (row : Row) :
    Nat → String → Cache → Except String (Entry × Cache)
  | 0 => fun _ _ => .error "RecursionError: maximum recursion depth exceeded"
  | fuel + 1 => calcAux cfg row (calculate_adjusted_timestamp cfg row fuel)

/-! ## Load-time cycle check (`models_config.validate_config`)

`validate_config` builds `graph[stage_id] = stage.preceding_stage or []`
from the *raw* configuration value and then iterates
`for neighbor in graph.get(node, [])`.  When `preceding_stage` is a list,
the neighbours are its elements; when it is a *string* (an expression such
as `"iff(pi_applicable==1,[5],[2])"`), Python iterates the string's
characters, so each single character of the expression text — including
characters inside conditionals — becomes a neighbour (multi-character
stage-ids can never be produced this way). -/

/-- Neighbour list of one stage for the dependency graph
(`stage.preceding_stage or []`, then Python iteration: over the
characters for a string, over the elements for a list; `None`, `""` and
`[]` are falsy and give `[]`). -/
def rawNeighbors : Option (String ⊕ List String) → List String
  | none => []
  | some (.inl s) => s.data.map (fun c => String.singleton c)
  | some (.inr l) => l

/-- `graph = {stage_id: stage.preceding_stage or [] for …}`. -/
def buildGraph (cfg : StagesConfig) : List (String × List String) :=
  cfg.stages.map (fun p => (p.1, rawNeighbors p.2.preceding_stage))

/-- The `for neighbor in graph.get(node, [])` loop of `has_cycle`: only
neighbours that are themselves graph keys (`if neighbor in graph`) are
visited; `recur` is `has_cycle` at the next-lower fuel. -/
def cycleNeighborsGo (graph : List (String × List String))
    (recur : String → List String → List String → Bool × List String) :
    List String → List String → List String → Bool × List String
  | [], visited, _ => (false, visited)
  | n :: rest, visited, recStack =>
    if (graph.lookup n).isSome then
      match recur n visited recStack with
      | (true, v) => (true, v)
      | (false, v) => cycleNeighborsGo graph recur rest v recStack
    else cycleNeighborsGo graph recur rest visited recStack

/-- The recursive `has_cycle(node)` of `validate_config`: grey/white
detection with `rec_stack` (passed down, so removal on exit is implicit)
and `visited` (threaded through and returned).  Recursion depth is bounded
by the number of distinct graph keys, so fuel `≥ graph.length + 1` never
runs out. -/
def hasCycle (graph : List (String × List String)) :
    Nat → String → List String → List String → Bool × List String
  | 0 => fun _ visited _ => (true, visited)
  | fuel + 1 => fun node visited recStack =>
    if node ∈ recStack then (true, visited)
    else if node ∈ visited then (false, visited)
    else
      cycleNeighborsGo graph (hasCycle graph fuel)
        (match graph.lookup node with
         | some ns => ns
         | none => [])
        (node :: visited) (node :: recStack)

/-- The outer `for stage_id in graph:` loop of `validate_config`,
threading the `visited` set and raising on the first detected cycle. -/
def validateLoop (graph : List (String × List String)) (fuel : Nat) :
    List String → List String → Except String Unit
  | [], _ => .ok ()
  | sid :: rest, visited =>
    if sid ∈ visited then validateLoop graph fuel rest visited
    else
      match hasCycle graph fuel sid visited [] with
      | (true, _) =>
          .error s!"Circular dependency detected involving stage {sid}"
      | (false, v) => validateLoop graph fuel rest v

/-- `models_config.validate_config`: raises
`ValueError("Circular dependency detected involving stage …")` exactly
when the DFS finds a back-edge in the graph described above. -/
def validate_config (cfg : StagesConfig) : Except String Unit :=
  let graph := buildGraph cfg
  validateLoop graph (graph.length + 1) (graph.map (·.1)) []

/-! ## PO processor and batch driver (`tat_processor.py`)

`TATProcessor.calculate_tat` resets the resolver cache, iterates the
catalog, collects per-stage results and summary counters, and (optionally)
attaches delay information that depends on the wall clock
(`datetime.now()`), which the embedding takes as an explicit `now`
parameter.  The per-PO result dictionary is modelled by `TatResult` with
the `summary` sub-dictionary flattened into fields. -/

/-- `TATProcessor._format_calculation_summary`: the summary reads the keys
`method`, `source`, `decision_reason`, `lead_time_applied` and
`target_date` from the resolver's details.  `stage_calculator.py` never
writes `source`, `decision_reason` or `target_date` (it writes
`calculation_source` and `target_timestamp`), so those three reads are
always `None`; likewise the legacy method-specific branches
(`actual_over_precedence`, `precedence_over_actual`, `precedence_only`,
`actual_only`, `fallback`) never fire because the resolver only produces
`Projected`/`Actual`/`Adjusted`/`error`. -/
structure CalcSummary where
  method : Option String
  source : Option String
  decision : Option String
  lead_time_days : Int
  target_date : Option Int
deriving DecidableEq

def format_calculation_summary (d : Details) : CalcSummary :=
  { method := d.method
    source := none
    decision := none
    lead_time_days := d.lead_time_applied
    target_date := none }

/-- `TATProcessor._extract_target_timestamp`: prefers the summary's
`target_date` (never populated, see `format_calculation_summary`), then
falls back to the stage result's `timestamp` (the final timestamp); the
ISO round trip through `pd.to_datetime` is the identity. -/
def extract_target_timestamp (calcSum : CalcSummary) (timestamp : Option Int) :
    Option Int :=
  match calcSum.target_date with
  | some t => some t
  | none => timestamp

/-- `TATProcessor._get_actual_timestamp`: looks the *raw*
`actual_timestamp` string up as a row column
(`if field_name in po_row.index`), rejects `NaN`/`""`/`"NA"`, and parses
with `pd.to_datetime`.  Rows carry instants as `vdate`; `pd.to_datetime`
conversion of string/numeric encodings is not modelled, so any non-instant
value yields `None` (as an unparseable value would). -/
def get_actual_timestamp (field : String) (row : Row) : Option Int :=
  match row.lookup field with
  | some (.vdate t) => some t
  | _ => none

/-- The delay triple `_calculate_stage_delay` produces. -/
structure DelayInfo where
  delay_days : Option Int := none
  delay_status : String := "unknown"
  delay_reason : Option String := none
deriving DecidableEq

/-- `TATProcessor._calculate_stage_delay`: with an actual and a target,
classify `delayed`/`early`/`on_time` by the floored day difference; with
a target only, compare the target against the current wall clock (`now`)
to classify `pending_overdue`/`pending`.  Without the stage or its
`actual_timestamp` configuration field, everything stays at the
defaults. -/
def calculate_stage_delay (cfg : StagesConfig) (stage_id : String)
    (calcSum : CalcSummary) (timestamp : Option Int) (row : Row) (now : Int) :
    DelayInfo :=
  let target := extract_target_timestamp calcSum timestamp
  match cfg.stages.lookup stage_id with
  | none => {}
  | some sc =>
    match sc.actual_timestamp with
    | none => {}
    | some field =>
      match get_actual_timestamp field row, target with
      | some a, some t =>
        let dd := daysBetween a t
        if dd > 0 then
          { delay_days := some dd, delay_status := "delayed",
            delay_reason :=
              some s!"Actual completion {dd} days after target" }
        else if dd < 0 then
          let ad := dd.natAbs
          { delay_days := some dd, delay_status := "early",
            delay_reason := some s!"Completed {ad} days before target" }
        else
          { delay_days := some dd, delay_status := "on_time",
            delay_reason := some "Completed on target date" }
      | none, some t =>
        if now > t then
          let od := daysBetween now t
          { delay_days := some od, delay_status := "pending_overdue",
            delay_reason := some s!"Stage incomplete, {od} days overdue" }
        else
          { delay_status := "pending",
            delay_reason := some "Stage not yet completed" }
      | _, none => {}

/-- The `delay_summary` dictionary of the per-PO summary. -/
structure DelaySummary where
  delayed_stages : Nat := 0
  early_stages : Nat := 0
  on_time_stages : Nat := 0
  pending_stages : Nat := 0
  pending_overdue_stages : Nat := 0
  total_delay_days : Int := 0
  critical_path_delays : Nat := 0
  average_delay_days : Option Rat := none
deriving DecidableEq

/-- `TATProcessor._update_delay_summary`: count the status, add
`delay_days` to the total when it is truthy (present and nonzero), and
count a critical-path delay when the stage is flagged `critical_path` and
the status is `delayed` or `pending_overdue`. -/
def update_delay_summary (ds : DelaySummary) (di : DelayInfo)
    (sc : StageConfig) : DelaySummary :=
  let ds1 :=
    if di.delay_status = "delayed" then
      let ds' := { ds with delayed_stages := ds.delayed_stages + 1 }
      match di.delay_days with
      | some v =>
          if v = 0 then ds'
          else { ds' with total_delay_days := ds'.total_delay_days + v }
      | none => ds'
    else if di.delay_status = "early" then
      { ds with early_stages := ds.early_stages + 1 }
    else if di.delay_status = "on_time" then
      { ds with on_time_stages := ds.on_time_stages + 1 }
    else if di.delay_status = "pending" then
      { ds with pending_stages := ds.pending_stages + 1 }
    else if di.delay_status = "pending_overdue" then
      let ds' :=
        { ds with pending_overdue_stages := ds.pending_overdue_stages + 1 }
      match di.delay_days with
      | some v =>
          if v = 0 then ds'
          else { ds' with total_delay_days := ds'.total_delay_days + v }
      | none => ds'
    else ds
  if sc.process_flow.critical_path ∧
      (di.delay_status = "delayed" ∨ di.delay_status = "pending_overdue") then
    { ds1 with critical_path_delays := ds1.critical_path_delays + 1 }
  else ds1

/-- One stage entry of the per-PO result (`result["stages"][stage_id]`);
the delay fields are only present when `include_delays` is set
(otherwise `none`). -/
structure StageResult where
  name : String
  timestamp : Option Int
  calculation : CalcSummary
  team_owner : String
  process_type : String
  critical_path : Bool
  handoff_points : List String
  dependencies : List Dep
  delay_days : Option Int := none
  delay_status : Option String := none
  delay_reason : Option String := none
deriving DecidableEq

/-- The `methods_used` counter dictionary, with its keys exactly as
initialised by `calculate_tat` — the method names of the *legacy*
calculator (`tat_calculator.py`), not the names the current
`stage_calculator.py` produces. -/
def methodsUsedInit : List (String × Nat) :=
  [("actual_only", 0), ("precedence_only", 0), ("actual_over_precedence", 0),
   ("precedence_over_actual", 0), ("fallback", 0), ("failed", 0)]

/-- `if method in result["summary"]["methods_used"]:
methods_used[method] += 1` — a key absent from the dictionary is silently
ignored. -/
def bumpMethod (mu : List (String × Nat)) (k : String) : List (String × Nat) :=
  if (mu.lookup k).isSome then
    mu.map (fun p => if p.1 = k then (p.1, p.2 + 1) else p)
  else mu

/-- Python `round(q, 2)` on the two summary ratios.  (CPython rounds
floats half-to-even; the model rounds half-up on exact rationals — the
difference affects only the displayed two-decimal value of
`completion_rate`/`average_delay_days`, which no claim inspects
numerically.) -/
def pyRound2 (q : Rat) : Rat :=
  ((⌊q * 100 + 1 / 2⌋ : Int) : Rat) / 100

/-- The per-PO result document (`calculate_tat`'s returned dictionary,
with the `summary` sub-dictionary flattened). -/
structure TatResult where
  po_id : Value
  calculation_date : Int
  total_stages : Nat
  calculated_stages : Nat
  methods_used : List (String × Nat)
  delay_summary : Option DelaySummary
  stages : List (String × StageResult)
  completion_rate : Rat

/-- The `for stage_id, stage_config in self.config.stages.items():` loop
of `calculate_tat`, threading the resolver cache, the
`calculated_stages` counter, `methods_used`, the delay summary and the
collected stage entries.  A resolver exception (e.g. from a predecessor
expression) propagates out of the loop — `calculate_tat` has no
`try` around it. -/
def tatLoop (cfg : StagesConfig) (row : Row) (include_delays : Bool)
    (now : Int) :
    List (String × StageConfig) → Cache → Nat → List (String × Nat) →
    DelaySummary → List (String × StageResult) →
    Except String (Nat × List (String × Nat) × DelaySummary ×
      List (String × StageResult))
  | [], _, calcN, mu, ds, acc => .ok (calcN, mu, ds, acc)
  | (sid, sc) :: rest, cache, calcN, mu, ds, acc =>
    match calculate_adjusted_timestamp cfg row (cfg.stages.length + 1)
        sid cache with
    | .error e => .error e
    | .ok ((ts, d), cache') =>
      let calcN' := if ts.isSome then calcN + 1 else calcN
      let mu' :=
        match d.method with
        | some m => bumpMethod mu m
        | none => mu
      let calcSum := format_calculation_summary d
      let base : StageResult :=
        { name := sc.name
          timestamp := ts
          calculation := calcSum
          team_owner := sc.process_flow.team_owner
          process_type := sc.process_flow.process_type
          critical_path := sc.process_flow.critical_path
          handoff_points := sc.process_flow.handoff_points
          dependencies := d.dependencies }
      if include_delays then
        let di := calculate_stage_delay cfg sid calcSum ts row now
        let sr : StageResult :=
          { base with
              delay_days := di.delay_days
              delay_status := some di.delay_status
              delay_reason := di.delay_reason }
        tatLoop cfg row include_delays now rest cache' calcN' mu'
          (update_delay_summary ds di sc) (acc ++ [(sid, sr)])
      else
        tatLoop cfg row include_delays now rest cache' calcN' mu' ds
          (acc ++ [(sid, base)])

/-- `TATProcessor.calculate_tat`: reset the cache, run the stage loop,
then attach `completion_rate` and (when delays are included and any stage
was delayed) `average_delay_days`.  `now` stands for the
`datetime.now()` readings (`calculation_date` and the pending-stage
checks). -/
def calculate_tat (cfg : StagesConfig) (row : Row) (include_delays : Bool)
    (now : Int) : Except String TatResult :=
  match tatLoop cfg row include_delays now cfg.stages [] 0
      methodsUsedInit {} [] with
  | .error e => .error e
  | .ok (calcN, mu, ds, acc) =>
    let total := cfg.stages.length
    let cr : Rat :=
      if total > 0 then pyRound2 ((calcN : Rat) / (total : Rat) * 100) else 0
    let avg : Rat :=
      pyRound2 ((ds.total_delay_days : Rat) / (ds.delayed_stages : Rat))
    let ds' :=
      if include_delays ∧ ds.delayed_stages > 0 then
        { ds with average_delay_days := some avg }
      else ds
    .ok { po_id := rowGetD row "po_razin_id" (.vstr "Unknown")
          calculation_date := now
          total_stages := total
          calculated_stages := calcN
          methods_used := mu
          delay_summary := if include_delays then some ds' else none
          stages := acc
          completion_rate := cr }

/-- One entry of `process_batch`'s result list: a per-PO document, or the
error record `{"po_id": …, "error": str(e), "calculation_date": …}` the
`except` branch appends. -/
inductive BatchEntry where
  | success (r : TatResult)
  | failure (po_id : Value) (error : String) (calculation_date : Int)

/-- `TATProcessor.process_batch`: every row produces exactly one entry;
an exception during one PO is caught and turned into an error record
(`po_id` falling back to `Row_<index>`), and the batch continues. -/
def process_batch (cfg : StagesConfig) (rows : List Row)
    (include_delays : Bool) (now : Int) : List BatchEntry :=
  rows.enum.map (fun p =>
    match calculate_tat cfg p.2 include_delays now with
    | .ok r => .success r
    | .error e =>
        .failure (rowGetD p.2 "po_razin_id" (.vstr ("Row_" ++ toString p.1)))
          e now)

/-! ## Claims -/

/-- C1: for every stage resolved with a non-null current actual
timestamp, the method-selection step (`stage_calculator.py` lines
137–162, extracted verbatim as `determineMethod` and applied by
`calcAux`) chooses `Actual` with `actual = final = current_actual`
whenever the maximal predecessor actual is absent or not strictly greater
than the current actual (in particular on equality, since the code
compares with strict `>`), and chooses `Adjusted` — with
`actual = final =` the maximal predecessor actual — only when that
maximum is strictly greater than the current actual. -/
theorem c1_method_selection (cur : Int) (pas : List Int)
    (target : Option Int) (src : Option String) :
    ((∀ m, maxIntList pas = some m → m ≤ cur) →
      determineMethod (some cur) pas target src
        = ("Actual", some cur, some cur, some "actual_from_field"))
  ∧ (∀ m, maxIntList pas = some m → cur < m →
      determineMethod (some cur) pas target src
        = ("Adjusted", some m, some m, some "actual_from_precedence"))
  ∧ ((determineMethod (some cur) pas target src).1 = "Adjusted" →
      ∃ m, maxIntList pas = some m ∧ cur < m ∧
        (determineMethod (some cur) pas target src).2.1 = some m ∧
        (determineMethod (some cur) pas target src).2.2.1 = some m) := by
  refine ⟨?_, ?_, ?_⟩
  · intro h
    cases hm : maxIntList pas with
    | none => simp [determineMethod, hm]
    | some m =>
        have hle : ¬ cur < m := not_lt.mpr (h m hm)
        simp [determineMethod, hm, hle]
  · intro m hm hlt
    simp [determineMethod, hm, hlt]
  · intro hAdj
    cases hm : maxIntList pas with
    | none => simp [determineMethod, hm] at hAdj
    | some m =>
        by_cases hlt : cur < m
        · exact ⟨m, rfl, hlt, by simp [determineMethod, hm, hlt],
            by simp [determineMethod, hm, hlt]⟩
        · simp [determineMethod, hm, hlt] at hAdj

/-- Witness for C1 at concrete inputs: a predecessor maximum equal to the
current actual yields `Actual`, a strictly greater one yields
`Adjusted`. -/
theorem c1_witness :
    determineMethod (some 5) [5, 3] (some 0) none
      = ("Actual", some 5, some 5, some "actual_from_field")
  ∧ determineMethod (some 5) [7] (some 0) none
      = ("Adjusted", some 7, some 7, some "actual_from_precedence") := by
  constructor
  · refine (c1_method_selection 5 [5, 3] (some 0) none).1 ?_
    intro m hm
    have h5 : (5 : Int) = m := Option.some.inj hm
    omega
  · exact (c1_method_selection 5 [7] (some 0) none).2.1 7 rfl (by decide)

/-- C6: the delay step (`stage_calculator.py` lines 164–169, extracted as
`computeDelay` and applied by `calcAux` to the selected method, the target
and the selected actual) records a delay exactly when the method is
`Actual` or `Adjusted` and both the target and the actual timestamps are
present; that delay is the whole-day difference `actual - target`,
truncated at the day boundary (floored, so negative values are allowed),
and `Projected` or `error` details carry a null delay. -/
theorem c6_delay_rule :
    (∀ (m : String) (t a : Option Int),
        (computeDelay m t a).isSome ↔
          ((m = "Actual" ∨ m = "Adjusted") ∧ t.isSome ∧ a.isSome))
  ∧ (∀ (m : String) (tv av : Int), (m = "Actual" ∨ m = "Adjusted") →
        computeDelay m (some tv) (some av) = some (daysBetween av tv))
  ∧ (∀ t a, computeDelay "Projected" t a = none)
  ∧ (∀ sid, (errDetails sid).delay = none) := by
  refine ⟨?_, ?_, ?_, ?_⟩
  · intro m t a
    unfold computeDelay
    by_cases hm : m = "Actual" ∨ m = "Adjusted"
    · rw [if_pos hm]
      cases t <;> cases a <;> simp [hm]
    · rw [if_neg hm]
      simp [hm]
  · intro m tv av hm
    unfold computeDelay
    rw [if_pos hm]
  · intro t a
    unfold computeDelay
    rw [if_neg (by decide)]
  · intro sid
    rfl

/-- Witness for C6 at concrete inputs: an `Actual` stage one day late has
delay `1`, a `Projected` stage has a null delay. -/
theorem c6_witness :
    computeDelay "Actual" (some 0) (some 86400) = some 1
  ∧ computeDelay "Projected" (some 0) (some 86400) = none := by
  constructor
  · exact (c6_delay_rule.2.1 "Actual" 0 86400 (Or.inl rfl)).trans rfl
  · exact c6_delay_rule.2.2.1 (some 0) (some 86400)

/-- C10: memoization of the resolver.  A cache hit returns exactly the
cached pair and leaves the cache unchanged; a fresh, successful resolution
of a stage-id present in the catalog stores the returned pair in the
cache before returning, and any later call with the same stage-id against
that cache returns exactly that pair; a call with a stage-id absent from
the catalog (and the cache) returns `(None, error-details)` and inserts
nothing. -/
theorem c10_memoization (cfg : StagesConfig) (row : Row) :
    (∀ fuel sid cache p, cache.lookup sid = some p →
        calculate_adjusted_timestamp cfg row (fuel + 1) sid cache
          = .ok (p, cache))
  ∧ (∀ fuel sid cache r c', cache.lookup sid = none →
        (cfg.stages.lookup sid).isSome →
        calculate_adjusted_timestamp cfg row (fuel + 1) sid cache
          = .ok (r, c') →
        c'.lookup sid = some r ∧
          ∀ fuel2, calculate_adjusted_timestamp cfg row (fuel2 + 1) sid c'
            = .ok (r, c'))
  ∧ (∀ fuel sid cache, cache.lookup sid = none →
        cfg.stages.lookup sid = none →
        calculate_adjusted_timestamp cfg row (fuel + 1) sid cache
          = .ok ((none, errDetails sid), cache)) := by
  have hit : ∀ fuel sid (cache : Cache) p, cache.lookup sid = some p →
      calculate_adjusted_timestamp cfg row (fuel + 1) sid cache
        = .ok (p, cache) := by
    intro fuel sid cache p hp
    show calcAux cfg row _ sid cache = _
    unfold calcAux
    rw [hp]
  refine ⟨hit, ?_, ?_⟩
  · intro fuel sid cache r c' hc hs hrun
    obtain ⟨stage, hst⟩ := Option.isSome_iff_exists.mp hs
    have hrun' : calcAux cfg row
        (calculate_adjusted_timestamp cfg row fuel) sid cache
        = .ok (r, c') := hrun
    unfold calcAux at hrun'
    rw [hc, hst] at hrun'
    dsimp only at hrun'
    cases hpb : predBlock cfg (calculate_adjusted_timestamp cfg row fuel)
        row stage.preceding_expr cache with
    | error e =>
        rw [hpb] at hrun'
        exact absurd hrun' (by simp)
    | ok pc =>
        obtain ⟨acc, cache1⟩ := pc
        rw [hpb] at hrun'
        simp only [Except.ok.injEq, Prod.mk.injEq] at hrun'
        obtain ⟨hr, hcache⟩ := hrun'
        have hlook : c'.lookup sid = some r := by
          rw [← hcache, ← hr]
          simp [List.lookup]
        exact ⟨hlook, fun fuel2 => hit fuel2 sid c' r hlook⟩
  · intro fuel sid cache hc hs
    show calcAux cfg row _ sid cache = _
    unfold calcAux
    rw [hc, hs]

/-- A minimal process-flow record for the concrete test catalogs. -/
def demoPF : ProcessFlow :=
  { critical_path := false, process_type := "p", team_owner := "T" }

/-- One root stage with only a fallback expression. -/
def c10cfg : StagesConfig :=
  { stages := [("1", { name := "S1", process_flow := demoPF,
                       fallback_expression := .name "c" })] }

def c10row : Row := [("c", .vdate 0)]

/-- The entry the resolver computes for stage `"1"` of `c10cfg` on
`c10row`: projected from the fallback instant with zero lead time. -/
def c10entry : Entry :=
  (some 0,
   { method := some "Projected", target_timestamp := some 0,
     actual_timestamp := none, final_timestamp := some 0, delay := none,
     lead_time_applied := 0, dependencies := [], actual_field := none,
     precedence_method := some "Actual/Adjusted",
     calculation_source := some "fallback_based_target", reason := none })

/-- Witness for C10 at a concrete one-stage catalog: a fresh call stores
its result, the stored pair is returned unchanged afterwards, and an
unknown stage-id is answered with error details without touching the
cache. -/
theorem c10_witness :
    (let run := calculate_adjusted_timestamp c10cfg c10row 2 "1" []
     ∃ r c', run = .ok (r, c') ∧ c'.lookup "1" = some r ∧
       calculate_adjusted_timestamp c10cfg c10row 5 "1" c' = .ok (r, c'))
  ∧ calculate_adjusted_timestamp c10cfg c10row 2 "zz" []
      = .ok ((none, errDetails "zz"), []) := by
  constructor
  · refine ⟨c10entry, [("1", c10entry)], rfl, ?_⟩
    have h := (c10_memoization c10cfg c10row).2.1 1 "1" [] c10entry
      [("1", c10entry)] rfl rfl rfl
    exact ⟨h.1, h.2 4⟩
  · exact (c10_memoization c10cfg c10row).2.2 1 "zz" [] rfl rfl

/-- The stage used for C2: its `preceding_stage` expression calls an
unknown function, so `_eval_node` raises
`ValueError("Unknown function: foo")`. -/
def c2stage : StageConfig :=
  { name := "S1", preceding_expr := some (.call "foo" .enil),
    process_flow := demoPF, fallback_expression := .name "c" }

def c2cfg : StagesConfig := { stages := [("1", c2stage)] }

def c2row : Row := [("po_razin_id", .vstr "PO-2"), ("c", .vdate 0)]

/-- C2 counterexample: the claim says an error inside the predecessor
expression is confined — the predecessor skipped with a null result and
the resolver still returning a result for the stage, the enclosing PO not
aborted.  On `c2cfg` the resolver call itself raises (returns
`Except.error`, not a result), and the whole PO degenerates to a batch
error record. -/
theorem c2_counterexample :
    calculate_adjusted_timestamp c2cfg c2row 4 "1" []
      = .error "Unknown function: foo"
  ∧ process_batch c2cfg [c2row] true 0
      = [.failure (.vstr "PO-2") "Unknown function: foo" 0] :=
  ⟨rfl, rfl⟩

/-- C2 amended: an exception raised while evaluating a stage's
`preceding_stage` expression is **not** confined to that expression — the
resolver evaluates it outside any `try`, so the exception propagates out
of `calculate_adjusted_timestamp` (no result is produced for the stage)
and aborts the enclosing PO's calculation; the batch driver catches it,
emits a per-PO error record, and continues, producing exactly one entry
per input row.  (Errors in `actual_timestamp` and fallback expressions
go through `evaluate_expression` and *are* confined.) -/
theorem c2_amended (cfg : StagesConfig) (row : Row) :
    (∀ fuel sid (cache : Cache) stage e msg,
        cache.lookup sid = none →
        cfg.stages.lookup sid = some stage →
        stage.preceding_expr = some e →
        evalNode cache row e = .error msg →
        calculate_adjusted_timestamp cfg row (fuel + 1) sid cache
          = .error msg)
  ∧ (∀ (rows : List Row) include_delays now,
        (process_batch cfg rows include_delays now).length = rows.length) := by
  constructor
  · intro fuel sid cache stage e msg hc hst hpre heval
    show calcAux cfg row _ sid cache = _
    unfold calcAux
    rw [hc, hst]
    dsimp only
    unfold predBlock
    rw [hpre]
    dsimp only
    rw [heval]
  · intro rows include_delays now
    simp [process_batch]

/-- Witness for C2's amended claim at the concrete failing stage. -/
theorem c2_witness :
    calculate_adjusted_timestamp c2cfg c2row 3 "1" []
      = .error "Unknown function: foo"
  ∧ (process_batch c2cfg [c2row, c2row] true 0).length = 2 := by
  constructor
  · exact (c2_amended c2cfg c2row).1 2 "1" [] c2stage (.call "foo" .enil)
      "Unknown function: foo" rfl rfl rfl rfl
  · exact ((c2_amended c2cfg c2row).2 [c2row, c2row] true 0).trans rfl

/-- Catalog for C3: stage `"2"`'s `preceding_stage` expression evaluates
to the bare string `"1"` (not a list); stage `"1"` is resolvable. -/
def c3cfg : StagesConfig :=
  { stages :=
      [ ("1", { name := "S1", process_flow := demoPF,
                fallback_expression := .name "c" }),
        ("2", { name := "S2",
                preceding_expr := some (.const (.vstr "1")),
                process_flow := demoPF,
                fallback_expression := .name "c" }) ] }

def c3row : Row := [("c", .vdate 0)]

/-- C3 counterexample: the predecessor expression of stage `"2"` yields
the non-list value `"1"`, and the claim says it is coerced to the
singleton `["1"]` so that the stage resolves with one predecessor.  In
fact the stage resolves with *no* dependencies and a fallback-based
target: `result if isinstance(result, list) else []` replaces any
non-list value by the empty list. -/
theorem c3_counterexample :
    evalNode [] c3row (.const (.vstr "1")) = .ok (.vstr "1")
  ∧ (calculate_adjusted_timestamp c3cfg c3row 3 "2" []).map
      (fun rc => (rc.1.2.dependencies, rc.1.2.calculation_source))
      = .ok ([], some "fallback_based_target") :=
  ⟨rfl, rfl⟩

/-- C3 amended: a `preceding_stage` expression evaluating to a non-list
value is coerced to the **empty** list — the stage is resolved with no
predecessors, not with a singleton; elements of a genuine list result are
coerced with `str()`, so a numeric stage-id `n` is looked up as the
string `toString n`. -/
theorem c3_amended :
    (∀ (cfg : StagesConfig) recur (row : Row) (cache : Cache)
        (e : Expr) (v : Value),
        evalNode cache row e = .ok v →
        (∀ vs, v ≠ Value.vlist vs) →
        predBlock cfg recur row (some e) cache = .ok ({}, cache))
  ∧ (∀ n : Int, pyStr (Value.vnum n) = toString n) := by
  constructor
  · intro cfg recur row cache e v heval hnl
    unfold predBlock
    dsimp only
    rw [heval]
    dsimp only
    have hempty : stageListOf v = [] := by
      cases v with
      | vlist vs => exact absurd rfl (hnl vs)
      | vnone => rfl
      | vbool b => rfl
      | vnum n => rfl
      | vstr s => rfl
      | vdate t => rfl
    rw [hempty]
    rfl
  · intro n
    rfl

/-- Witness for C3's amended claim: the concrete non-list predecessor
value of `c3cfg` produces an empty predecessor accumulator, and the
numeric id `5` is stringified to `"5"`. -/
theorem c3_witness :
    predBlock c3cfg (calculate_adjusted_timestamp c3cfg c3row 2) c3row
      (some (.const (.vstr "1"))) [] = .ok ({}, [])
  ∧ pyStr (Value.vnum 5) = toString (5 : Int) := by
  constructor
  · exact c3_amended.1 c3cfg _ c3row [] (.const (.vstr "1")) (.vstr "1")
      rfl (fun vs h => Value.noConfusion h)
  · exact c3_amended.2 5

/-- C4 counterexample: the claim says a comparison with a null operand
yields false; but Python's `==` on two `None`s (two missing row columns)
yields `True`. -/
theorem c4_counterexample :
    evalNode [] [] (.compare .eq (.name "x") (.name "y"))
      = .ok (.vbool true) := rfl

/-- C4 amended: in the `ast.Compare` dispatch, `==` yields true when both
operands are null and false when exactly one is; `!=` is its negation
(true when exactly one operand is null); and the ordered comparisons
(`<`, `<=`, `>`, `>=`) with a null operand raise a `TypeError` that
aborts the expression evaluation instead of yielding false. -/
theorem c4_amended :
    (compareOp .eq .vnone .vnone = .ok (.vbool true)
      ∧ compareOp .ne .vnone .vnone = .ok (.vbool false))
  ∧ (∀ v : Value, v ≠ .vnone →
        compareOp .eq .vnone v = .ok (.vbool false)
      ∧ compareOp .eq v .vnone = .ok (.vbool false)
      ∧ compareOp .ne .vnone v = .ok (.vbool true)
      ∧ compareOp .ne v .vnone = .ok (.vbool true))
  ∧ (∀ (v : Value) (op : COp),
        (op = .lt ∨ op = .le ∨ op = .gt ∨ op = .ge) →
        compareOp op .vnone v = .error "TypeError: unorderable types"
      ∧ compareOp op v .vnone = .error "TypeError: unorderable types") := by
  refine ⟨⟨rfl, rfl⟩, ?_, ?_⟩
  · intro v hv
    cases v with
    | vnone => exact absurd rfl hv
    | vbool b => exact ⟨rfl, rfl, rfl, rfl⟩
    | vnum n => exact ⟨rfl, rfl, rfl, rfl⟩
    | vstr s => exact ⟨rfl, rfl, rfl, rfl⟩
    | vdate t => exact ⟨rfl, rfl, rfl, rfl⟩
    | vlist vs => exact ⟨rfl, rfl, rfl, rfl⟩
  · intro v op hop
    have hl : ∀ w, pyLt Value.vnone w = .error "TypeError: unorderable types" := by
      intro w; cases w <;> rfl
    have hr : ∀ w, pyLt w Value.vnone = .error "TypeError: unorderable types" := by
      intro w; cases w <;> rfl
    have hl2 : ∀ w, pyLe Value.vnone w = .error "TypeError: unorderable types" := by
      intro w; cases w <;> rfl
    have hr2 : ∀ w, pyLe w Value.vnone = .error "TypeError: unorderable types" := by
      intro w; cases w <;> rfl
    rcases hop with h | h | h | h <;> subst h <;>
      constructor <;>
      simp [compareOp, Except.map, hl, hr, hl2, hr2]

/-- Witness for C4's amended claim at concrete operands. -/
theorem c4_witness :
    compareOp .eq .vnone (.vnum 1) = .ok (.vbool false)
  ∧ compareOp .ne .vnone (.vnum 1) = .ok (.vbool true)
  ∧ compareOp .lt .vnone (.vnum 1)
      = .error "TypeError: unorderable types" := by
  have h2 := c4_amended.2.1 (.vnum 1) (fun h => Value.noConfusion h)
  have h3 := c4_amended.2.2 (.vnum 1) .lt (Or.inl rfl)
  exact ⟨h2.1, h2.2.2.1, h3.1⟩

/-- C5 counterexample: with an empty cache, the identifier `stage_7` is
claimed to evaluate to null; in fact it falls through to the row lookup
and returns the row column literally named `stage_7`. -/
theorem c5_counterexample :
    evalNode [] [("stage_7", .vdate 5)] (.name "stage_7")
      = .ok (.vdate 5) := rfl

/-- C5 amended: a `stage_<id>` identifier evaluates to the memoized final
timestamp when stage `<id>` (the identifier with every occurrence of
`"stage_"` removed) is in the per-PO cache; otherwise — cached or not —
the identifier falls through to the ordinary PO-row lookup
`po_row.get(identifier)`, which is null only when the row has no column
of that literal name.  Evaluation never invokes the stage resolver: the
evaluator's inputs are only the cache and the row (`evalNode` is defined
without reference to `calculate_adjusted_timestamp`). -/
theorem c5_amended :
    (∀ (cache : Cache) (row : Row) (s : String) (ts : Option Int)
        (d : Details),
        pyStartsWith s "stage_" = true →
        cache.lookup (pyReplace s "stage_" "") = some (ts, d) →
        evalNode cache row (.name s) = .ok (optDate ts))
  ∧ (∀ (cache : Cache) (row : Row) (s : String),
        pyStartsWith s "stage_" = true →
        cache.lookup (pyReplace s "stage_" "") = none →
        evalNode cache row (.name s) = .ok (rowGet row s))
  ∧ (∀ (cache : Cache) (row : Row) (s : String),
        pyStartsWith s "stage_" = false →
        evalNode cache row (.name s) = .ok (rowGet row s)) := by
  refine ⟨?_, ?_, ?_⟩
  · intro cache row s ts d hsw hcache
    simp [evalNode, hsw, hcache]
  · intro cache row s hsw hcache
    simp [evalNode, hsw, hcache]
  · intro cache row s hsw
    simp [evalNode, hsw]

/-- Witness for C5's amended claim: a cached stage id is served from the
cache; an uncached `stage_7` identifier is served from the row (here a
column literally named `stage_7`); a plain identifier reads the row. -/
theorem c5_witness :
    evalNode [("7", (some 9, errDetails "w"))] [] (.name "stage_7")
      = .ok (.vdate 9)
  ∧ evalNode [] [("stage_7", .vdate 5)] (.name "stage_7") = .ok (.vdate 5)
  ∧ evalNode [] [("x", .vnum 2)] (.name "x") = .ok (.vnum 2) := by
  refine ⟨?_, ?_, ?_⟩
  · exact (c5_amended.1 [("7", (some 9, errDetails "w"))] [] "stage_7"
      (some 9) (errDetails "w") rfl rfl).trans rfl
  · exact (c5_amended.2.1 [] [("stage_7", .vdate 5)] "stage_7"
      rfl rfl).trans rfl
  · exact (c5_amended.2.2 [] [("x", .vnum 2)] "x" rfl).trans rfl

/-- Catalog and row for C7: a single stage that resolves with method
`Actual` (recorded actual two days after creation, one day of lead
time). -/
def c7cfg : StagesConfig :=
  { stages := [("1", { name := "S1",
                       actual_timestamp := some "a_date",
                       actual_expr := some (.name "a_date"),
                       process_flow := demoPF,
                       fallback_expression := .name "c_date",
                       lead_time := 1 })] }

def c7row : Row :=
  [("po_razin_id", .vstr "PO-7"), ("a_date", .vdate 172800),
   ("c_date", .vdate 0)]

/-- C7: the per-PO summary's `methods_used` counters never count
anything.  `calculate_tat` initialises the dictionary with the *legacy*
method names (`actual_only`, `precedence_only`, `actual_over_precedence`,
`precedence_over_actual`, `fallback`, `failed`) and increments a counter
only when the stage's method is one of those keys — but the stage
calculator only produces `Projected`/`Actual`/`Adjusted`/`error`, so the
guard `if method in methods_used` always fails and every counter stays at
zero: here a stage resolves with method `Actual`, yet `methods_used` is
returned exactly as initialised, with no `Actual`/`Projected`/`Adjusted`/
`error` keys at all. -/
theorem c7_methods_used_bug :
    (calculate_tat c7cfg c7row false 0).map
      (fun r => (r.methods_used,
        (r.stages.lookup "1").map (fun sr => sr.calculation.method)))
      = .ok (methodsUsedInit, some (some "Actual"))
  ∧ methodsUsedInit.lookup "Actual" = none
  ∧ methodsUsedInit.lookup "Projected" = none
  ∧ methodsUsedInit.lookup "Adjusted" = none
  ∧ methodsUsedInit.lookup "error" = none
  ∧ bumpMethod methodsUsedInit "Actual" = methodsUsedInit :=
  ⟨rfl, rfl, rfl, rfl, rfl, rfl⟩

/-- Configuration for C9: one stage whose `preceding_stage` is the
conditional expression *string* `"iff(x==1,[],[])"`.  Neither branch of
the conditional names stage `1` as a predecessor, so under the claim the
dependency graph has no edges and the configuration is accepted. -/
def c9cfg : StagesConfig :=
  { stages := [("1", { name := "S1",
                       preceding_stage := some (Sum.inl "iff(x==1,[],[])"),
                       process_flow := demoPF,
                       fallback_expression := .name "c" })] }

/-- C9: `validate_config` does not build its graph from the stage-ids
appearing as list literals.  For a string-valued `preceding_stage` it
iterates the *characters* of the expression text
(`for neighbor in stage.preceding_stage`), so every single character that
happens to be an existing stage-id becomes an edge — including characters
inside conditionals, which the claim says are ignored.  On `c9cfg` the
character `'1'` of `"x==1"` produces the self-loop `1 → 1` and the
configuration is rejected with a cycle error, where the claim requires it
to be accepted. -/
theorem c9_validate_config_bug :
    validate_config c9cfg
      = .error "Circular dependency detected involving stage 1"
  ∧ buildGraph c9cfg
      = [("1", ["i", "f", "f", "(", "x", "=", "=", "1", ",", "[", "]",
                ",", "[", "]", ")"])] :=
  ⟨rfl, rfl⟩

/-- Catalog and row for C8: the stage's configured actual field `a_date`
is absent from the row, so the stage is `Projected` with target `0` (from
`c_date` plus zero lead time) and its delay classification depends on the
evaluation clock. -/
def c8cfg : StagesConfig :=
  { stages := [("1", { name := "S1",
                       actual_timestamp := some "a_date",
                       actual_expr := some (.name "a_date"),
                       process_flow := demoPF,
                       fallback_expression := .name "c_date" })] }

def c8row : Row := [("po_razin_id", .vstr "PO-8"), ("c_date", .vdate 0)]

/-- The per-PO document with `calculation_date` erased (the only
difference the claim allows between two evaluations). -/
def eraseCalcDate (r : TatResult) : TatResult :=
  { r with calculation_date := 0 }

/-- Observation used by the C8 counterexample: the `delay_status` of one
stage of a per-PO document. -/
def delayStatusOf (sid : String) : Except String TatResult → Option String
  | .ok r => (r.stages.lookup sid).bind (fun sr => sr.delay_status)
  | .error _ => none

/-- C8 counterexample: two evaluations of the processor on the same row
are claimed to be bit-identical except for `calculation_date`; but
`_calculate_stage_delay` also reads the clock, so an evaluation one day
before the target reports the stage `pending` while an evaluation two
days after reports it `pending_overdue` — the documents differ beyond
`calculation_date`. -/
theorem c8_counterexample :
    ¬ ((calculate_tat c8cfg c8row true (-86400)).map eraseCalcDate
        = (calculate_tat c8cfg c8row true 172800).map eraseCalcDate) := by
  intro h
  have h' := congrArg (delayStatusOf "1") h
  have e1 : delayStatusOf "1"
      ((calculate_tat c8cfg c8row true (-86400)).map eraseCalcDate)
      = some "pending" := rfl
  have e2 : delayStatusOf "1"
      ((calculate_tat c8cfg c8row true 172800).map eraseCalcDate)
      = some "pending_overdue" := rfl
  rw [e1, e2] at h'
  exact absurd h' (by decide)

/-- A stage entry with its clock-derived delay fields erased. -/
def stripStage (sr : StageResult) : StageResult :=
  { sr with delay_days := none, delay_status := none, delay_reason := none }

def stripStages (l : List (String × StageResult)) :
    List (String × StageResult) :=
  l.map (fun p => (p.1, stripStage p.2))

/-- A per-PO document with everything the evaluation clock can influence
erased: `calculation_date`, the per-stage delay fields and the delay
summary. -/
def stripDoc (r : TatResult) : TatResult :=
  { r with calculation_date := 0, delay_summary := none,
           stages := stripStages r.stages }

/-- Relation between two `tatLoop` outcomes produced with different
clocks: identical errors, or identical counters and stage entries up to
the clock-derived delay fields. -/
def LoopOutRel :
    Except String (Nat × List (String × Nat) × DelaySummary ×
      List (String × StageResult)) →
    Except String (Nat × List (String × Nat) × DelaySummary ×
      List (String × StageResult)) → Prop
  | .error e1, .error e2 => e1 = e2
  | .ok (n1, m1, _, a1), .ok (n2, m2, _, a2) =>
      n1 = n2 ∧ m1 = m2 ∧ stripStages a1 = stripStages a2
  | _, _ => False

/-- The clock only flows into the delay fields: two runs of the stage
loop with different `now` readings agree on the cache, the counters and
the delay-stripped stage entries. -/
theorem tatLoop_strips (cfg : StagesConfig) (row : Row) (inc : Bool)
    (now1 now2 : Int) :
    ∀ (l : List (String × StageConfig)) (cache : Cache) (calcN : Nat)
      (mu : List (String × Nat)) (ds1 ds2 : DelaySummary)
      (acc1 acc2 : List (String × StageResult)),
      stripStages acc1 = stripStages acc2 →
      LoopOutRel (tatLoop cfg row inc now1 l cache calcN mu ds1 acc1)
        (tatLoop cfg row inc now2 l cache calcN mu ds2 acc2) := by
  intro l
  induction l with
  | nil =>
      intro cache calcN mu ds1 ds2 acc1 acc2 hacc
      exact ⟨rfl, rfl, hacc⟩
  | cons hd rest ih =>
      intro cache calcN mu ds1 ds2 acc1 acc2 hacc
      obtain ⟨sid, sc⟩ := hd
      simp only [tatLoop]
      cases hstep : calculate_adjusted_timestamp cfg row
          (cfg.stages.length + 1) sid cache with
      | error e => exact rfl
      | ok rc =>
          obtain ⟨⟨ts, d⟩, cache'⟩ := rc
          cases inc with
          | false =>
              dsimp only [Bool.false_eq_true, if_false]
              apply ih
              simp only [stripStages, List.map_append, List.map_cons,
                List.map_nil, stripStage] at hacc ⊢
              rw [hacc]
          | true =>
              dsimp only [if_true]
              apply ih
              simp only [stripStages, List.map_append, List.map_cons,
                List.map_nil, stripStage] at hacc ⊢
              rw [hacc]

/-- C8 amended: two evaluations of the processor on the same row and
catalog produce equal documents *given the same clock reading*; with
different clock readings the documents are equal after erasing
`calculation_date` **and** the clock-derived fields — the per-stage
`delay_days`/`delay_status`/`delay_reason` and the delay summary — which
`_calculate_stage_delay` computes from `datetime.now()` for incomplete
stages.  (Disabling `include_delays` removes the extra fields, so those
documents differ only in `calculation_date`.) -/
theorem c8_amended (cfg : StagesConfig) (row : Row) (include_delays : Bool)
    (now1 now2 : Int) :
    (calculate_tat cfg row include_delays now1).map stripDoc
      = (calculate_tat cfg row include_delays now2).map stripDoc := by
  have h := tatLoop_strips cfg row include_delays now1 now2 cfg.stages [] 0
      methodsUsedInit {} {} [] [] rfl
  unfold calculate_tat
  cases h1 : tatLoop cfg row include_delays now1 cfg.stages [] 0
      methodsUsedInit {} [] with
  | error e1 =>
      cases h2 : tatLoop cfg row include_delays now2 cfg.stages [] 0
          methodsUsedInit {} [] with
      | error e2 =>
          rw [h1, h2] at h
          have he : e1 = e2 := h
          subst he
          rfl
      | ok out2 =>
          rw [h1, h2] at h
          exact h.elim
  | ok out1 =>
      cases h2 : tatLoop cfg row include_delays now2 cfg.stages [] 0
          methodsUsedInit {} [] with
      | error e2 =>
          rw [h1, h2] at h
          exact h.elim
      | ok out2 =>
          obtain ⟨n1, m1, dsx1, a1⟩ := out1
          obtain ⟨n2, m2, dsx2, a2⟩ := out2
          rw [h1, h2] at h
          obtain ⟨hn, hmu, hacc⟩ := h
          subst hn
          subst hmu
          simp only [Except.map]
          congr 1
          simp [stripDoc, hacc]

end Tat
